import Mathlib

/-!
# Verification of the mobile BDD test-suite page-object logic

Shallow embedding of the deterministic control flow of the repository
`DesafioQA_MobileBddAppiumPython`:

* `pages/product_page.py` — `collect_product_titles`, `ensure_minimum_products`,
  `compare_products`, `get_product_title_by_index`, `select_product`;
* `features/steps/login_steps.py` — `_detect_appium_endpoint`,
  `step_enter_credentials`;
* `features/steps/android_env_check.py` — `check_android_environment`;
* `features/steps/product_steps.py` — `step_logged_in`.

The Appium driver is modelled as an oracle (`Env`): the `k`-th call to
`get_all_product_titles` returns `Env.viewports k` and the `k`-th call to
`_scroll_forward` returns `Env.scrollOk k`.  HTTP probing is modelled as a
function from URL to `Option Nat` (`none` = the request raised, `some c` =
it returned status code `c`).
-/

namespace MobileBdd

/-! ## Header-like title filtering (`product_page.py`, `_is_header_like`) -/

/-- Python `str.strip()`: remove leading and trailing whitespace. -/
def pyStrip (s : String) : String :=
  ⟨((s.data.dropWhile Char.isWhitespace).reverse.dropWhile Char.isWhitespace).reverse⟩

/-- Python `str.lower()`: lower-case every character. -/
def pyLower (s : String) : String :=
  ⟨s.data.map Char.toLower⟩

/-- The trimmed, lower-cased form of a title, `t.strip().lower()`. -/
def normTitle (t : String) : String := pyLower (pyStrip t)

/-- Embedding of the local predicate `_is_header_like` of
`collect_product_titles` (`product_page.py` lines 491-495):
`if not t: return True; s = t.strip().lower(); return s in ("", "products", "product", "title", "catalog")`. -/
def py_is_header_like (t : String) : Bool :=
  if t = "" then true
  else
    let s := normTitle t
    s = "" || s = "products" || s = "product" || s = "title" || s = "catalog"

/-- The set of header-like placeholder strings named by the specification. -/
def headerSet : List String := ["", "products", "product", "title", "catalog"]

/-- Spec-side formulation of the filter: keep a title iff its trimmed,
lower-cased form is not in `headerSet`. -/
def specKeeps (t : String) : Bool := !(decide (normTitle t ∈ headerSet))

/-! ## Driver oracle -/

/-- Oracle for the driver-dependent behaviour of the product page.
`viewports k` is the list of titles the `k`-th call to
`get_all_product_titles` returns (call `0` is the initial viewport, call
`k+1` the viewport seen after the `k`-th successful scroll), and
`scrollOk k` is the result of the `k`-th call to `_scroll_forward`. -/
structure Env where
  viewports : Nat → List String
  scrollOk : Nat → Bool

/-- Titles of the `k`-th viewport that survive the header filter
(`for t in visible: if not _is_header_like(t): accumulated.append(t)`). -/
def filteredVp (env : Env) (k : Nat) : List String :=
  (env.viewports k).filter (fun t => !py_is_header_like t)

/-! ## `collect_product_titles` (`product_page.py` lines 479-543) -/

/-- Observable outcome of one call to `collect_product_titles`:
the returned list, the value written to `self._last_collected_titles`,
the number of `_scroll_forward` calls, and the number of
`get_all_product_titles` calls. -/
structure CollectRes where
  titles : List String
  cache : List String
  scrolls : Nat
  snaps : Nat
deriving Repr, DecidableEq

/-- The scroll loop of `collect_product_titles` (lines 510-543).
`j` is the index of the next scroll attempt, `acc` the accumulated titles,
`noNew` the `consecutive_no_new` counter and the fuel is the number of
remaining iterations of `for attempt in range(max_scrolls)`.
Each early-return site stores `list(accumulated)` in the cache field,
mirroring lines 532-535; the fuel-exhausted and `break` exits reach the
common final lines 541-543, which also store `list(accumulated)`. -/
def collectLoop (env : Env) (minCount : Nat) : Nat → Nat → List String → Nat → CollectRes
  | 0, _, acc, _ => ⟨acc, acc, 0, 0⟩
  | fuel + 1, j, acc, noNew =>
    if env.scrollOk j = false then
      -- `if not scrolled: break` (line 513) then lines 541-543
      ⟨acc, acc, 1, 0⟩
    else
      let newT := filteredVp env (j + 1)
      let acc2 := acc ++ newT
      let noNew2 := if 0 < newT.length then 0 else noNew + 1
      if minCount ≤ acc2.length then
        -- lines 532-535: cache then return
        ⟨acc2, acc2, 1, 1⟩
      else if 2 ≤ noNew2 then
        -- lines 537-539: break, then lines 541-543
        ⟨acc2, acc2, 1, 1⟩
      else
        let t := collectLoop env minCount fuel (j + 1) acc2 noNew2
        ⟨t.titles, t.cache, t.scrolls + 1, t.snaps + 1⟩

/-- Embedding of `collect_product_titles(min_count, max_scrolls, wait_after_scroll)`
(lines 479-543).  `wait_after_scroll` only feeds `time.sleep` and is dropped. -/
def collect_product_titles (env : Env) (minCount maxScrolls : Nat) : CollectRes :=
  let acc0 := filteredVp env 0
  if minCount ≤ acc0.length then
    -- lines 504-507: cache then return after the initial viewport
    ⟨acc0, acc0, 0, 1⟩
  else
    let t := collectLoop env minCount maxScrolls 0 acc0 0
    ⟨t.titles, t.cache, t.scrolls, t.snaps + 1⟩

/-- Embedding of `ensure_minimum_products` (lines 466-477): delegates to
`collect_product_titles` and returns the length of the collected list. -/
def ensure_minimum_products (env : Env) (minCount maxScrolls : Nat) : Nat :=
  (collect_product_titles env minCount maxScrolls).titles.length

/-- Concatenation, in encounter order, of the header-filtered viewports
`j, j+1, ..., j+n-1`. -/
def concatFrom (env : Env) (j : Nat) : Nat → List String
  | 0 => []
  | n + 1 => concatFrom env j n ++ filteredVp env (j + n)

/-- Concatenation of the spec-filtered titles of viewports `0, ..., n-1`. -/
def specConcat (env : Env) : Nat → List String
  | 0 => []
  | n + 1 => specConcat env n ++ (env.viewports n).filter specKeeps

/-! ## `compare_products` (`product_page.py` lines 436-464) -/

/-- Result record of `compare_products`:
`{"product_a": ..., "product_b": ..., "equal": ...}`. -/
structure CompareRes where
  product_a : String
  product_b : String
  equal : Bool
deriving Repr, DecidableEq

/-- The title list `compare_products` works on (lines 448-455): the cached
`_last_collected_titles` when it is a list long enough for the requested
indices, otherwise a fresh `collect_product_titles(min_count=required,
max_scrolls=8, ...)`.  `cache = none` models the attribute being absent
(`getattr(self, "_last_collected_titles", None)`). -/
def collectedTitlesFor (env : Env) (cache : Option (List String)) (required : Nat) :
    List String :=
  match cache with
  | some l => if required ≤ l.length then l else (collect_product_titles env required 8).titles
  | none => (collect_product_titles env required 8).titles

/-- Embedding of `compare_products(index_a, index_b)` (lines 436-464).
`Except.error` models `raise IndexError`. -/
def compare_products (env : Env) (cache : Option (List String)) (index_a index_b : Nat) :
    Except String CompareRes :=
  let required := max index_a index_b + 1
  let accumulated := collectedTitlesFor env cache required
  if accumulated.length < required then
    Except.error "IndexError"
  else
    let title_a := accumulated.getD index_a ""
    let title_b := accumulated.getD index_b ""
    Except.ok ⟨title_a, title_b, decide (title_a = title_b)⟩

/-! ## `get_product_title_by_index` / `select_product` (lines 121-148) -/

/-- Outcome of `select_product`: result (the clicked element's text, or
`IndexError`) together with the indices of the elements actually clicked. -/
structure SelectRes where
  result : Except String String
  clicks : List Nat
deriving Repr

/-- Embedding of `get_product_title_by_index(index)` (lines 121-133) over the
texts of the currently visible title elements.  The index is an `Int` so that
the Python guard `index < 0 or index >= len(elems)` is modelled exactly. -/
def get_product_title_by_index (elems : List String) (index : Int) : Except String String :=
  if index < 0 ∨ (elems.length : Int) ≤ index then
    Except.error "IndexError"
  else
    Except.ok (elems.getD index.toNat "")

/-- Embedding of `select_product(index)` (lines 135-148): same bounds guard,
then clicks element `index` and returns it. -/
def select_product (elems : List String) (index : Int) : SelectRes :=
  if index < 0 ∨ (elems.length : Int) ≤ index then
    ⟨Except.error "IndexError", []⟩
  else
    ⟨Except.ok (elems.getD index.toNat ""), [index.toNat]⟩

/-! ## `_detect_appium_endpoint` (`login_steps.py` lines 64-83) -/

/-- Result of one HTTP GET: `none` models a raised exception, `some c` a
response with status code `c`. -/
abbrev Probe := String → Option Nat

/-- Python `base_url.rstrip("/")`: drop every trailing `'/'`. -/
def rstripSlash (s : String) : String :=
  ⟨(s.data.reverse.dropWhile (fun c => c = '/')).reverse⟩

/-- The candidate loop of `_detect_appium_endpoint` (lines 75-82): probes
`candidate + "/status"` for each candidate in order, returning the first
candidate whose probe yields status 200 (an exception or a non-200 status
moves on to the next candidate), together with the list of URLs probed.
`fallback` is the stripped base returned when no candidate answers 200. -/
def detectLoop (probe : Probe) (fallback : String) :
    List String → List String → String × List String
  | [], trace => (fallback, trace)
  | candidate :: rest, trace =>
    let status_url := candidate ++ "/status"
    let trace2 := trace ++ [status_url]
    if probe status_url = some 200 then (candidate, trace2)
    else detectLoop probe fallback rest trace2

/-- Embedding of `_detect_appium_endpoint(base_url)` (lines 64-83), returning
the resolved endpoint and the sequence of URLs probed. -/
def detect_appium_endpoint_run (probe : Probe) (base_url : String) : String × List String :=
  let base := rstripSlash base_url
  detectLoop probe base [base, base ++ "/wd/hub"] []

/-- The endpoint `_detect_appium_endpoint` returns. -/
def detect_appium_endpoint (probe : Probe) (base_url : String) : String :=
  (detect_appium_endpoint_run probe base_url).fst

/-! ## `check_android_environment` (`android_env_check.py` lines 12-49) -/

/-- The pieces of host state `check_android_environment` reads:
the two environment variables (with `""` for unset, as in
`os.environ.get(..., "")`), the `os.path.isdir` oracle, and the result of
`shutil.which("adb")` (`none` when adb is not on the search path). -/
structure AndroidEnv where
  sdkRootVar : String
  homeVar : String
  isDir : String → Bool
  adbWhich : Option String

/-- Embedding of `check_android_environment` restricted to its `ok` result
(line 48): `ok = bool(sdk_root and os.path.isdir(sdk_root) and adb_exec)`
where `sdk_root = info["android_sdk_root"] or info["android_home"]`
(first truthy value, line 27). -/
def check_android_environment (e : AndroidEnv) : Bool :=
  let sdk_root := if e.sdkRootVar ≠ "" then e.sdkRootVar else e.homeVar
  decide (sdk_root ≠ "") && e.isDir sdk_root && e.adbWhich.isSome

/-! ## Login step fallbacks (`login_steps.py` 143-179, `product_steps.py` 29-65) -/

/-- A Python exception class, as far as the `except` clauses distinguish them:
`TimeoutException` versus any other exception. -/
inductive PyExc
  | timeout
  | other
deriving Repr, DecidableEq

/-- A call the credential steps can make on the login page object. -/
inductive PageCall
  | enterUsername
  | enterPassword
  | openMenu
  | openLoginFromMenu
  | login
  | loginViaMenu
deriving Repr, DecidableEq

/-- Outcome oracle for the login page object: for each primitive call the
steps may issue, `none` means the call succeeds and `some e` means it raises
`e`.  The direct attempt and the after-menu retry of `enter_username` /
`enter_password` are distinct calls and may behave differently. -/
structure LoginOutcomes where
  directUser : Option PyExc
  directPass : Option PyExc
  openMenu : Option PyExc
  openLoginFromMenu : Option PyExc
  retryUser : Option PyExc
  retryPass : Option PyExc
  loginCall : Option PyExc
  loginViaMenu : Option PyExc

/-- The `except TimeoutException` handler of `step_enter_credentials`
(lines 166-179): open the menu, open the "Log In" item and re-enter both
credentials; any exception raised inside is re-raised (`raise`, line 179). -/
def menuRetry (p : LoginOutcomes) : List PageCall × Except PyExc Unit :=
  match p.openMenu with
  | some e => ([PageCall.openMenu], Except.error e)
  | none =>
    match p.openLoginFromMenu with
    | some e => ([PageCall.openMenu, PageCall.openLoginFromMenu], Except.error e)
    | none =>
      match p.retryUser with
      | some e =>
        ([PageCall.openMenu, PageCall.openLoginFromMenu, PageCall.enterUsername],
         Except.error e)
      | none =>
        match p.retryPass with
        | some e =>
          ([PageCall.openMenu, PageCall.openLoginFromMenu, PageCall.enterUsername,
            PageCall.enterPassword], Except.error e)
        | none =>
          ([PageCall.openMenu, PageCall.openLoginFromMenu, PageCall.enterUsername,
            PageCall.enterPassword], Except.ok ())

/-- Embedding of `step_enter_credentials` (`login_steps.py` lines 143-179):
the optimistic direct entry, with the menu-path retry on `TimeoutException`
only.  Returns the trace of page-object calls and the propagated outcome. -/
def step_enter_credentials (p : LoginOutcomes) : List PageCall × Except PyExc Unit :=
  match p.directUser with
  | some PyExc.timeout =>
    let r := menuRetry p
    (PageCall.enterUsername :: r.fst, r.snd)
  | some e => ([PageCall.enterUsername], Except.error e)
  | none =>
    match p.directPass with
    | some PyExc.timeout =>
      let r := menuRetry p
      ([PageCall.enterUsername, PageCall.enterPassword] ++ r.fst, r.snd)
    | some e => ([PageCall.enterUsername, PageCall.enterPassword], Except.error e)
    | none => ([PageCall.enterUsername, PageCall.enterPassword], Except.ok ())

/-- Embedding of `step_logged_in` (`product_steps.py` lines 29-65), given
that `context.login_page` exists: try `login(usuario, senha)`; on
`TimeoutException` fall back to `login_via_menu`, whose failure is re-raised
(line 65). -/
def step_logged_in (p : LoginOutcomes) : List PageCall × Except PyExc Unit :=
  match p.loginCall with
  | none => ([PageCall.login], Except.ok ())
  | some PyExc.timeout =>
    match p.loginViaMenu with
    | none => ([PageCall.login, PageCall.loginViaMenu], Except.ok ())
    | some e => ([PageCall.login, PageCall.loginViaMenu], Except.error e)
  | some e => ([PageCall.login], Except.error e)

/-- The scenario of claim C6: the direct credential entry raised
`TimeoutException` (from `enter_username`, or from `enter_password` after
`enter_username` succeeded). -/
def directEntryTimedOut (p : LoginOutcomes) : Prop :=
  p.directUser = some PyExc.timeout ∨
    (p.directUser = none ∧ p.directPass = some PyExc.timeout)

instance (p : LoginOutcomes) : Decidable (directEntryTimedOut p) := by
  unfold directEntryTimedOut; infer_instance

/-! ## Helper lemmas: the header filter -/

lemma py_is_header_like_iff (t : String) :
    py_is_header_like t = true ↔ normTitle t ∈ headerSet := by
  by_cases h : t = ""
  · subst h
    constructor
    · intro _; decide
    · intro _; decide
  · simp only [py_is_header_like, if_neg h, headerSet, Bool.or_eq_true, decide_eq_true_eq,
      List.mem_cons, List.not_mem_nil, or_false]
    tauto

lemma not_py_is_header_like_eq_specKeeps (t : String) :
    (!py_is_header_like t) = specKeeps t := by
  by_cases hm : normTitle t ∈ headerSet
  · have hp : py_is_header_like t = true := (py_is_header_like_iff t).mpr hm
    simp [specKeeps, hp, hm]
  · have hp : py_is_header_like t = false := by
      rcases hb : py_is_header_like t with _ | _
      · rfl
      · exact absurd ((py_is_header_like_iff t).mp hb) hm
    simp [specKeeps, hp, hm]

lemma filteredVp_eq_spec (env : Env) (k : Nat) :
    filteredVp env k = (env.viewports k).filter specKeeps := by
  unfold filteredVp
  exact List.filter_congr (fun x _ => not_py_is_header_like_eq_specKeeps x)

/-! ## Helper lemmas: `concatFrom` -/

lemma concatFrom_succ_front (env : Env) (j n : Nat) :
    concatFrom env j (n + 1) = filteredVp env j ++ concatFrom env (j + 1) n := by
  induction n with
  | zero => simp [concatFrom]
  | succ n ih =>
    have harith : j + (n + 1) = (j + 1) + n := by omega
    calc concatFrom env j (n + 1 + 1)
        = concatFrom env j (n + 1) ++ filteredVp env (j + (n + 1)) := rfl
      _ = (filteredVp env j ++ concatFrom env (j + 1) n) ++ filteredVp env ((j + 1) + n) := by
          rw [ih, harith]
      _ = filteredVp env j ++ concatFrom env (j + 1) (n + 1) := by
          rw [List.append_assoc]; rfl

lemma concatFrom_zero_eq_specConcat (env : Env) (n : Nat) :
    concatFrom env 0 n = specConcat env n := by
  induction n with
  | zero => rfl
  | succ n ih =>
    show concatFrom env 0 n ++ filteredVp env (0 + n) = specConcat env n ++ _
    rw [ih, Nat.zero_add, filteredVp_eq_spec]

lemma mem_concatFrom_not_header (env : Env) (j n : Nat) (t : String)
    (h : t ∈ concatFrom env j n) : py_is_header_like t = false := by
  induction n with
  | zero => cases h
  | succ n ih =>
    rcases List.mem_append.mp h with h1 | h2
    · exact ih h1
    · have := (List.mem_filter.mp h2).2
      simpa using this

/-! ## Helper lemmas: `collectLoop` -/

/-- One-step unfolding of the scroll loop, with the `let` bindings expanded. -/
lemma collectLoop_succ (env : Env) (m fuel j : Nat) (acc : List String) (noNew : Nat) :
    collectLoop env m (fuel + 1) j acc noNew =
      if env.scrollOk j = false then ⟨acc, acc, 1, 0⟩
      else if m ≤ (acc ++ filteredVp env (j + 1)).length then
        ⟨acc ++ filteredVp env (j + 1), acc ++ filteredVp env (j + 1), 1, 1⟩
      else if 2 ≤ (if 0 < (filteredVp env (j + 1)).length then 0 else noNew + 1) then
        ⟨acc ++ filteredVp env (j + 1), acc ++ filteredVp env (j + 1), 1, 1⟩
      else
        let t := collectLoop env m fuel (j + 1) (acc ++ filteredVp env (j + 1))
          (if 0 < (filteredVp env (j + 1)).length then 0 else noNew + 1)
        ⟨t.titles, t.cache, t.scrolls + 1, t.snaps + 1⟩ := rfl

lemma collectLoop_titles_eq (env : Env) (m : Nat) :
    ∀ (fuel j : Nat) (acc : List String) (noNew : Nat),
      (collectLoop env m fuel j acc noNew).titles =
        acc ++ concatFrom env (j + 1) (collectLoop env m fuel j acc noNew).snaps := by
  intro fuel
  induction fuel with
  | zero => intro j acc noNew; simp [collectLoop, concatFrom]
  | succ fuel ih =>
    intro j acc noNew
    rw [collectLoop_succ]
    by_cases hs : env.scrollOk j = false
    · simp [hs, concatFrom]
    · rw [if_neg hs]
      by_cases hmin : m ≤ (acc ++ filteredVp env (j + 1)).length
      · rw [if_pos hmin]
        show acc ++ filteredVp env (j + 1) = acc ++ concatFrom env (j + 1) 1
        simp [concatFrom]
      · rw [if_neg hmin]
        by_cases hn : 2 ≤ (if 0 < (filteredVp env (j + 1)).length then 0 else noNew + 1)
        · rw [if_pos hn]
          show acc ++ filteredVp env (j + 1) = acc ++ concatFrom env (j + 1) 1
          simp [concatFrom]
        · rw [if_neg hn]
          show (collectLoop env m fuel (j + 1) _ _).titles =
            acc ++ concatFrom env (j + 1) ((collectLoop env m fuel (j + 1) _ _).snaps + 1)
          rw [ih, concatFrom_succ_front, ← List.append_assoc]

lemma collectLoop_cache_eq (env : Env) (m : Nat) :
    ∀ (fuel j : Nat) (acc : List String) (noNew : Nat),
      (collectLoop env m fuel j acc noNew).cache =
        (collectLoop env m fuel j acc noNew).titles := by
  intro fuel
  induction fuel with
  | zero => intro j acc noNew; rfl
  | succ fuel ih =>
    intro j acc noNew
    rw [collectLoop_succ]
    by_cases hs : env.scrollOk j = false
    · simp [hs]
    · rw [if_neg hs]
      by_cases hmin : m ≤ (acc ++ filteredVp env (j + 1)).length
      · rw [if_pos hmin]
      · rw [if_neg hmin]
        by_cases hn : 2 ≤ (if 0 < (filteredVp env (j + 1)).length then 0 else noNew + 1)
        · rw [if_pos hn]
        · rw [if_neg hn]
          exact ih (j + 1) _ _

/-- If the scroll attempts at positions `j + d` and `j + d + 1` (relative to a
loop started at scroll index `j`) are both performed and the viewports they
reveal contribute no new titles, the loop performs no further scroll attempt. -/
lemma collectLoop_two_fruitless (env : Env) (m : Nat) :
    ∀ (fuel d j : Nat) (acc : List String) (noNew : Nat),
      filteredVp env (j + d + 1) = [] →
      filteredVp env (j + d + 2) = [] →
      d + 2 ≤ (collectLoop env m fuel j acc noNew).scrolls →
      (collectLoop env m fuel j acc noNew).scrolls = d + 2 ∧
      d + 1 ≤ (collectLoop env m fuel j acc noNew).snaps ∧
      (collectLoop env m fuel j acc noNew).snaps ≤ d + 2 := by
  intro fuel
  induction fuel with
  | zero =>
    intro d j acc noNew _ _ hj
    exact absurd hj (by simp [collectLoop])
  | succ fuel ih =>
    intro d j acc noNew h1 h2 hj
    rw [collectLoop_succ] at hj ⊢
    by_cases hs : env.scrollOk j = false
    · rw [if_pos hs] at hj
      exact absurd hj (by simp)
    · rw [if_neg hs] at hj ⊢
      by_cases hmin : m ≤ (acc ++ filteredVp env (j + 1)).length
      · rw [if_pos hmin] at hj
        exact absurd hj (by simp)
      · rw [if_neg hmin] at hj ⊢
        by_cases hn : 2 ≤ (if 0 < (filteredVp env (j + 1)).length then 0 else noNew + 1)
        · rw [if_pos hn] at hj
          exact absurd hj (by simp)
        · rw [if_neg hn] at hj ⊢
          dsimp only at hj ⊢
          cases d with
          | zero =>
            simp only [Nat.add_zero] at h1 h2
            rw [h1, List.append_nil] at hj ⊢
            simp only [List.length_nil] at hj ⊢
            rw [if_neg (Nat.lt_irrefl 0)] at hj ⊢
            have hmin' : ¬ m ≤ acc.length := by
              rw [h1, List.append_nil] at hmin
              exact hmin
            cases fuel with
            | zero =>
              simp only [collectLoop] at hj
              omega
            | succ f =>
              rw [collectLoop_succ] at hj ⊢
              by_cases hs2 : env.scrollOk (j + 1) = false
              · rw [if_pos hs2] at hj ⊢
                dsimp only
                omega
              · rw [if_neg hs2] at hj ⊢
                have hidx : j + 1 + 1 = j + 2 := by omega
                rw [hidx, h2, List.append_nil] at hj ⊢
                rw [if_neg hmin'] at hj ⊢
                simp only [List.length_nil] at hj ⊢
                rw [if_neg (Nat.lt_irrefl 0)] at hj ⊢
                rw [if_pos (by omega : 2 ≤ noNew + 1 + 1)] at hj ⊢
                dsimp only
                omega
          | succ d =>
            have e1 : j + (d + 1) + 1 = (j + 1) + d + 1 := by omega
            have e2 : j + (d + 1) + 2 = (j + 1) + d + 2 := by omega
            rw [e1] at h1
            rw [e2] at h2
            have hj' : d + 2 ≤
                (collectLoop env m fuel (j + 1) (acc ++ filteredVp env (j + 1))
                  (if 0 < (filteredVp env (j + 1)).length then 0 else noNew + 1)).scrolls := by
              omega
            obtain ⟨ha, hb, hc⟩ := ih d (j + 1) (acc ++ filteredVp env (j + 1))
              (if 0 < (filteredVp env (j + 1)).length then 0 else noNew + 1) h1 h2 hj'
            exact ⟨by omega, by omega, by omega⟩

/-- If the loop ends with at least `m` accumulated titles, then every loop
iteration ended with a scroll-then-snapshot pair (the loop never stopped for
any other reason), and before the final snapshot the accumulated count was
always below `m`. -/
lemma collectLoop_min_reached (env : Env) (m : Nat) :
    ∀ (fuel j : Nat) (acc : List String) (noNew : Nat),
      acc.length < m →
      m ≤ (collectLoop env m fuel j acc noNew).titles.length →
      (collectLoop env m fuel j acc noNew).scrolls = (collectLoop env m fuel j acc noNew).snaps ∧
      ∀ k < (collectLoop env m fuel j acc noNew).snaps,
        (acc ++ concatFrom env (j + 1) k).length < m := by
  intro fuel
  induction fuel with
  | zero =>
    intro j acc noNew hacc habs
    simp only [collectLoop] at habs
    omega
  | succ fuel ih =>
    intro j acc noNew hacc hm
    rw [collectLoop_succ] at hm ⊢
    by_cases hs : env.scrollOk j = false
    · rw [if_pos hs] at hm
      exact absurd hm (by simpa using hacc)
    · rw [if_neg hs] at hm ⊢
      by_cases hmin : m ≤ (acc ++ filteredVp env (j + 1)).length
      · rw [if_pos hmin] at hm ⊢
        refine ⟨rfl, ?_⟩
        intro k hk
        have : k = 0 := by simpa using hk
        subst this
        simpa [concatFrom] using hacc
      · rw [if_neg hmin] at hm ⊢
        by_cases hn : 2 ≤ (if 0 < (filteredVp env (j + 1)).length then 0 else noNew + 1)
        · rw [if_pos hn] at hm
          exact absurd hm hmin
        · rw [if_neg hn] at hm ⊢
          dsimp only at hm ⊢
          have hacc2 : (acc ++ filteredVp env (j + 1)).length < m := by omega
          obtain ⟨ha, hb⟩ := ih (j + 1) (acc ++ filteredVp env (j + 1))
            (if 0 < (filteredVp env (j + 1)).length then 0 else noNew + 1) hacc2 hm
          refine ⟨by omega, ?_⟩
          intro k hk
          cases k with
          | zero => simpa [concatFrom] using hacc
          | succ k =>
            rw [concatFrom_succ_front, ← List.append_assoc]
            have hidx : j + 1 + 1 = j + 2 := by omega
            rw [hidx]
            have hk' : k < (collectLoop env m fuel (j + 1) (acc ++ filteredVp env (j + 1))
                (if 0 < (filteredVp env (j + 1)).length then 0 else noNew + 1)).snaps := by
              omega
            have := hb k hk'
            simpa [hidx] using this

lemma collect_titles_eq_concat (env : Env) (m ms : Nat) :
    (collect_product_titles env m ms).titles =
      concatFrom env 0 (collect_product_titles env m ms).snaps := by
  unfold collect_product_titles
  by_cases h0 : m ≤ (filteredVp env 0).length
  · rw [if_pos h0]
    show filteredVp env 0 = concatFrom env 0 1
    simp [concatFrom]
  · rw [if_neg h0]
    show (collectLoop env m ms 0 (filteredVp env 0) 0).titles =
      concatFrom env 0 ((collectLoop env m ms 0 (filteredVp env 0) 0).snaps + 1)
    rw [collectLoop_titles_eq, concatFrom_succ_front]

/-- Outer unfolding of `collect_product_titles` when the initial viewport
already satisfies `min_count`. -/
lemma collect_eq_of_initial_ge (env : Env) (m ms : Nat)
    (h0 : m ≤ (filteredVp env 0).length) :
    collect_product_titles env m ms =
      ⟨filteredVp env 0, filteredVp env 0, 0, 1⟩ := by
  unfold collect_product_titles
  rw [if_pos h0]

/-- Outer unfolding of `collect_product_titles` when the initial viewport
does not satisfy `min_count` and the scroll loop runs. -/
lemma collect_eq_of_initial_lt (env : Env) (m ms : Nat)
    (h0 : ¬ m ≤ (filteredVp env 0).length) :
    collect_product_titles env m ms =
      ⟨(collectLoop env m ms 0 (filteredVp env 0) 0).titles,
       (collectLoop env m ms 0 (filteredVp env 0) 0).cache,
       (collectLoop env m ms 0 (filteredVp env 0) 0).scrolls,
       (collectLoop env m ms 0 (filteredVp env 0) 0).snaps + 1⟩ := by
  unfold collect_product_titles
  rw [if_neg h0]

/-! ## Claim theorems -/

/-- C1: the list returned by `collect_product_titles` is exactly the
concatenation, in encounter order, over all viewport snapshots produced by
`get_all_product_titles` during the call, of those viewport titles whose
trimmed lower-cased form is not in `{"", "products", "product", "title",
"catalog"}`; in particular no returned element is such a placeholder. -/
theorem collect_titles_concat_filtered (env : Env) (m ms : Nat) :
    (collect_product_titles env m ms).titles =
      specConcat env (collect_product_titles env m ms).snaps ∧
    ∀ t ∈ (collect_product_titles env m ms).titles, normTitle t ∉ headerSet := by
  constructor
  · rw [collect_titles_eq_concat, concatFrom_zero_eq_specConcat]
  · intro t ht hmem
    rw [collect_titles_eq_concat] at ht
    have hfalse := mem_concatFrom_not_header env 0 _ t ht
    rw [(py_is_header_like_iff t).mpr hmem] at hfalse
    cases hfalse

/-- C2: once two consecutive scroll iterations (attempts `j` and `j + 1`)
have each appended zero new titles, no further scroll attempt is performed:
the loop exits and the function returns the accumulated list as it stands. -/
theorem collect_stops_after_two_fruitless (env : Env) (m ms j : Nat)
    (h1 : (env.viewports (j + 1)).filter specKeeps = [])
    (h2 : (env.viewports (j + 2)).filter specKeeps = [])
    (hj : j + 2 ≤ (collect_product_titles env m ms).scrolls) :
    (collect_product_titles env m ms).scrolls = j + 2 ∧
    (collect_product_titles env m ms).titles = specConcat env (j + 3) := by
  have h1' : filteredVp env (j + 1) = [] := by rw [filteredVp_eq_spec]; exact h1
  have h2' : filteredVp env (j + 2) = [] := by rw [filteredVp_eq_spec]; exact h2
  by_cases h0 : m ≤ (filteredVp env 0).length
  · rw [collect_eq_of_initial_ge env m ms h0] at hj
    exact absurd hj (by simp)
  · have hc := collect_eq_of_initial_lt env m ms h0
    have h1'' : filteredVp env (0 + j + 1) = [] := by rw [Nat.zero_add]; exact h1'
    have h2'' : filteredVp env (0 + j + 2) = [] := by rw [Nat.zero_add]; exact h2'
    have hjl : j + 2 ≤ (collectLoop env m ms 0 (filteredVp env 0) 0).scrolls := by
      rw [hc] at hj
      exact hj
    obtain ⟨ha, hb, hcc⟩ :=
      collectLoop_two_fruitless env m ms j 0 (filteredVp env 0) 0 h1'' h2'' hjl
    constructor
    · rw [hc]
      exact ha
    · rw [collect_titles_eq_concat, ← concatFrom_zero_eq_specConcat]
      have hsnap : (collect_product_titles env m ms).snaps =
          (collectLoop env m ms 0 (filteredVp env 0) 0).snaps + 1 := by
        rw [hc]
      have hcases : (collect_product_titles env m ms).snaps = j + 2 ∨
          (collect_product_titles env m ms).snaps = j + 3 := by omega
      rcases hcases with hcase | hcase
      · rw [hcase]
        have hstep : concatFrom env 0 (j + 3) =
            concatFrom env 0 (j + 2) ++ filteredVp env (0 + (j + 2)) := rfl
        rw [hstep, Nat.zero_add, h2', List.append_nil]
      · rw [hcase]

/-- C7: whenever the accumulated count of non-header titles reaches
`min_count` — from the initial viewport or right after a scroll's viewport —
`collect_product_titles` returns at once (every scroll performed was followed
by a snapshot, and before the final snapshot the accumulated count was still
below `min_count`), and `ensure_minimum_products` returns the length of the
returned list, which is then at least `min_count`. -/
theorem collect_returns_at_min_count (env : Env) (m ms : Nat)
    (h : m ≤ (collect_product_titles env m ms).titles.length) :
    (collect_product_titles env m ms).scrolls + 1 = (collect_product_titles env m ms).snaps ∧
    (∀ k, 0 < k → k < (collect_product_titles env m ms).snaps →
      (specConcat env k).length < m) ∧
    ensure_minimum_products env m ms = (collect_product_titles env m ms).titles.length ∧
    m ≤ ensure_minimum_products env m ms := by
  have key : (collect_product_titles env m ms).scrolls + 1 =
      (collect_product_titles env m ms).snaps ∧
      ∀ k, 0 < k → k < (collect_product_titles env m ms).snaps →
        (specConcat env k).length < m := ?_
  · exact ⟨key.1, key.2, rfl, h⟩
  by_cases h0 : m ≤ (filteredVp env 0).length
  · rw [collect_eq_of_initial_ge env m ms h0]
    exact ⟨rfl, by intro k hk0 hk1; dsimp only at hk1; omega⟩
  · have hc := collect_eq_of_initial_lt env m ms h0
    have hm : m ≤ (collectLoop env m ms 0 (filteredVp env 0) 0).titles.length := by
      rw [hc] at h
      exact h
    obtain ⟨ha, hb⟩ := collectLoop_min_reached env m ms 0 (filteredVp env 0) 0 (by omega) hm
    constructor
    · rw [hc]
      dsimp only
      omega
    · intro k hk0 hk1
      rw [hc] at hk1
      dsimp only at hk1
      cases k with
      | zero => omega
      | succ k =>
        rw [← concatFrom_zero_eq_specConcat, concatFrom_succ_front]
        exact hb k (by omega)

/-- C10: on every return path, `collect_product_titles` stores in
`_last_collected_titles` a list equal element-for-element to the list it
returns: after any call the cache and the returned value agree. -/
theorem collect_cache_agrees (env : Env) (m ms : Nat) :
    (collect_product_titles env m ms).cache = (collect_product_titles env m ms).titles := by
  by_cases h0 : m ≤ (filteredVp env 0).length
  · rw [collect_eq_of_initial_ge env m ms h0]
  · rw [collect_eq_of_initial_lt env m ms h0]
    exact collectLoop_cache_eq env m ms 0 _ 0

/-- Witness for C2: with one product in the initial viewport, a `min_count`
of 5 and two scrolls revealing nothing new, exactly two scroll attempts are
made. -/
theorem collect_stops_after_two_fruitless_witness :
    (collect_product_titles
      (⟨fun k => if k = 0 then ["Sauce Labs Backpack"] else [], fun _ => true⟩ : Env)
      5 6).scrolls = 0 + 2 ∧
    (collect_product_titles
      (⟨fun k => if k = 0 then ["Sauce Labs Backpack"] else [], fun _ => true⟩ : Env)
      5 6).titles = specConcat
        (⟨fun k => if k = 0 then ["Sauce Labs Backpack"] else [], fun _ => true⟩ : Env)
        (0 + 3) :=
  collect_stops_after_two_fruitless _ 5 6 0 (by decide) (by decide) (by decide)

/-- Witness for C7: two products visible at once with `min_count = 2`:
no scroll happens and `ensure_minimum_products` reports at least 2. -/
theorem collect_returns_at_min_count_witness :
    (collect_product_titles
      (⟨fun _ => ["Sauce Labs Backpack", "Sauce Labs Bike Light"], fun _ => true⟩ : Env)
      2 6).scrolls + 1 =
      (collect_product_titles
        (⟨fun _ => ["Sauce Labs Backpack", "Sauce Labs Bike Light"], fun _ => true⟩ : Env)
        2 6).snaps ∧
    2 ≤ ensure_minimum_products
      (⟨fun _ => ["Sauce Labs Backpack", "Sauce Labs Bike Light"], fun _ => true⟩ : Env) 2 6 := by
  have h := collect_returns_at_min_count
    (⟨fun _ => ["Sauce Labs Backpack", "Sauce Labs Bike Light"], fun _ => true⟩ : Env)
    2 6 (by decide)
  exact ⟨h.1, h.2.2.2⟩

/-- C3: with `T` the title list `compare_products` works on (the cache when
long enough, else a fresh collection), if `len T ≥ max(a,b)+1` the call
returns the record `{product_a = T[a], product_b = T[b],
equal = (T[a] == T[b])}`; if even after collection `len T < max(a,b)+1`, it
raises `IndexError` and returns no record. -/
theorem compare_products_spec (env : Env) (cache : Option (List String)) (a b : Nat) :
    (max a b + 1 ≤ (collectedTitlesFor env cache (max a b + 1)).length →
      a < (collectedTitlesFor env cache (max a b + 1)).length ∧
      b < (collectedTitlesFor env cache (max a b + 1)).length ∧
      compare_products env cache a b = Except.ok
        ⟨(collectedTitlesFor env cache (max a b + 1)).getD a "",
         (collectedTitlesFor env cache (max a b + 1)).getD b "",
         decide ((collectedTitlesFor env cache (max a b + 1)).getD a "" =
           (collectedTitlesFor env cache (max a b + 1)).getD b "")⟩) ∧
    ((collectedTitlesFor env cache (max a b + 1)).length < max a b + 1 →
      compare_products env cache a b = Except.error "IndexError") := by
  constructor
  · intro h
    have hA : a ≤ max a b := Nat.le_max_left a b
    have hB : b ≤ max a b := Nat.le_max_right a b
    refine ⟨by omega, by omega, ?_⟩
    unfold compare_products
    rw [if_neg (by omega)]
  · intro h
    unfold compare_products
    rw [if_pos h]

/-- Witness for C3: with a cached list of two distinct titles,
`compare_products 0 1` reports them unequal; with an empty catalog and no
cache, it raises `IndexError`. -/
theorem compare_products_spec_witness :
    compare_products (⟨fun _ => [], fun _ => false⟩ : Env)
      (some ["Sauce Labs Backpack", "Sauce Labs Bike Light"]) 0 1 =
      Except.ok ⟨"Sauce Labs Backpack", "Sauce Labs Bike Light", false⟩ ∧
    compare_products (⟨fun _ => [], fun _ => false⟩ : Env) none 0 1 =
      Except.error "IndexError" := by
  constructor
  · have h := (compare_products_spec (⟨fun _ => [], fun _ => false⟩ : Env)
      (some ["Sauce Labs Backpack", "Sauce Labs Bike Light"]) 0 1).1 (by decide)
    exact h.2.2.trans (by rfl)
  · exact (compare_products_spec (⟨fun _ => [], fun _ => false⟩ : Env) none 0 1).2 (by decide)

/-- C9: for an index `i < 0` or `i ≥` the number of visible title elements,
`get_product_title_by_index` and `select_product` raise `IndexError` —
negative indices never wrap around Python-style — and `select_product`
clicks no element in that case. -/
theorem product_index_out_of_range (elems : List String) (i : Int)
    (h : i < 0 ∨ (elems.length : Int) ≤ i) :
    get_product_title_by_index elems i = Except.error "IndexError" ∧
    (select_product elems i).result = Except.error "IndexError" ∧
    (select_product elems i).clicks = [] := by
  unfold get_product_title_by_index select_product
  rw [if_pos h, if_pos h]
  exact ⟨rfl, rfl, rfl⟩

/-- Witness for C9: index `-1` on a one-element catalog raises and clicks
nothing. -/
theorem product_index_out_of_range_witness :
    get_product_title_by_index ["Sauce Labs Backpack"] (-1) = Except.error "IndexError" ∧
    (select_product ["Sauce Labs Backpack"] (-1)).result = Except.error "IndexError" ∧
    (select_product ["Sauce Labs Backpack"] (-1)).clicks = [] :=
  product_index_out_of_range ["Sauce Labs Backpack"] (-1) (by decide)

/-- C5: `check_android_environment` reports `ok = True` iff one of
`ANDROID_SDK_ROOT` / `ANDROID_HOME` is set to a non-empty existing directory
(`ANDROID_SDK_ROOT` taking precedence: when it is set it is the one checked)
and an `adb` executable resolves on the search path; otherwise `ok = False`. -/
theorem check_android_environment_ok_iff (e : AndroidEnv) :
    check_android_environment e = true ↔
      (((e.sdkRootVar ≠ "" ∧ e.isDir e.sdkRootVar = true) ∨
        (e.sdkRootVar = "" ∧ e.homeVar ≠ "" ∧ e.isDir e.homeVar = true)) ∧
       e.adbWhich.isSome = true) := by
  unfold check_android_environment
  by_cases h : e.sdkRootVar = ""
  · rw [if_neg (by simp [h])]
    simp only [Bool.and_eq_true, decide_eq_true_eq]
    constructor
    · rintro ⟨⟨hh, hd⟩, ha⟩
      exact ⟨Or.inr ⟨h, hh, hd⟩, ha⟩
    · rintro ⟨hor, ha⟩
      rcases hor with ⟨hne, _⟩ | ⟨_, hh, hd⟩
      · exact absurd h hne
      · exact ⟨⟨hh, hd⟩, ha⟩
  · rw [if_pos h]
    simp only [Bool.and_eq_true, decide_eq_true_eq]
    constructor
    · rintro ⟨⟨_, hd⟩, ha⟩
      exact ⟨Or.inl ⟨h, hd⟩, ha⟩
    · rintro ⟨hor, ha⟩
      rcases hor with ⟨_, hd⟩ | ⟨he, _⟩
      · exact ⟨⟨h, hd⟩, ha⟩
      · exact absurd he h

/-! ## Endpoint detection lemmas and claims -/

lemma wd_hub_status_append (s : String) :
    (s ++ "/wd/hub") ++ "/status" = s ++ "/wd/hub/status" := by
  rw [String.append_assoc]
  rw [show ("/wd/hub" ++ "/status" : String) = "/wd/hub/status" from by decide]

lemma rstripSlash_getLast_ne (s : String) :
    (rstripSlash s).data.getLast? ≠ some '/' := by
  show ((s.data.reverse.dropWhile (fun c => c = '/')).reverse).getLast? ≠ some '/'
  rw [List.getLast?_reverse]
  intro h
  have h2 := List.head?_dropWhile_not (fun c => decide (c = '/')) s.data.reverse
  rw [h] at h2
  simp at h2

/-- Closed form of the candidate loop of `_detect_appium_endpoint`. -/
lemma detect_run_eq (probe : Probe) (base_url : String) :
    detect_appium_endpoint_run probe base_url =
      if probe (rstripSlash base_url ++ "/status") = some 200 then
        (rstripSlash base_url, [rstripSlash base_url ++ "/status"])
      else if probe (rstripSlash base_url ++ "/wd/hub/status") = some 200 then
        (rstripSlash base_url ++ "/wd/hub",
         [rstripSlash base_url ++ "/status", rstripSlash base_url ++ "/wd/hub/status"])
      else
        (rstripSlash base_url,
         [rstripSlash base_url ++ "/status", rstripSlash base_url ++ "/wd/hub/status"]) := by
  unfold detect_appium_endpoint_run
  simp only [detectLoop, List.nil_append, List.cons_append, wd_hub_status_append]

/-- Counterexample to C4 as literally stated: for the base URL `"http://h/"`
(trailing slash) and a probe answering 200 everywhere, the probe of
`<base>/status` returns 200, yet the function does not return `<base>`
(it returns the slash-stripped `"http://h"`). -/
theorem detect_endpoint_slash_counterexample :
    (fun _ : String => (some 200 : Option Nat)) ("http://h/" ++ "/status") = some 200 ∧
    detect_appium_endpoint (fun _ : String => (some 200 : Option Nat)) "http://h/" ≠
      "http://h/" := by
  constructor
  · rfl
  · decide

/-- C4 (amended): with `B` the base URL with trailing `"/"` stripped — as the
code normalises it before probing — if the probe of `B/status` returns 200
the function returns `B`; if that probe does not return 200 and the probe of
`B/wd/hub/status` returns 200, it returns `B/wd/hub`; and `B/status` is
always probed first (`B/wd/hub/status` only ever after it). -/
theorem detect_endpoint_resolution (probe : Probe) (base_url : String) :
    (probe (rstripSlash base_url ++ "/status") = some 200 →
      detect_appium_endpoint probe base_url = rstripSlash base_url) ∧
    (probe (rstripSlash base_url ++ "/status") ≠ some 200 →
      probe (rstripSlash base_url ++ "/wd/hub/status") = some 200 →
      detect_appium_endpoint probe base_url = rstripSlash base_url ++ "/wd/hub") ∧
    ((detect_appium_endpoint_run probe base_url).snd =
        [rstripSlash base_url ++ "/status"] ∨
      (detect_appium_endpoint_run probe base_url).snd =
        [rstripSlash base_url ++ "/status", rstripSlash base_url ++ "/wd/hub/status"]) := by
  unfold detect_appium_endpoint
  rw [detect_run_eq]
  refine ⟨?_, ?_, ?_⟩ <;>
    by_cases hp : probe (rstripSlash base_url ++ "/status") = some 200 <;>
      by_cases hq : probe (rstripSlash base_url ++ "/wd/hub/status") = some 200 <;>
        simp [hp, hq]

/-- Witness for the amended C4: a probe answering 200 at once resolves to the
bare base; a probe answering 200 only at `/wd/hub/status` resolves to
`<base>/wd/hub`. -/
theorem detect_endpoint_resolution_witness :
    detect_appium_endpoint (fun _ : String => (some 200 : Option Nat)) "http://h" =
      rstripSlash "http://h" ∧
    detect_appium_endpoint
      (fun u : String => if u = "http://h/wd/hub/status" then (some 200 : Option Nat) else none)
      "http://h" = rstripSlash "http://h" ++ "/wd/hub" := by
  constructor
  · exact (detect_endpoint_resolution (fun _ : String => (some 200 : Option Nat)) "http://h").1
      (by rfl)
  · exact (detect_endpoint_resolution
        (fun u : String => if u = "http://h/wd/hub/status" then (some 200 : Option Nat) else none)
        "http://h").2.1 (by decide) (by decide)

/-- C8: when no status probe yields 200, `_detect_appium_endpoint` raises
nothing and returns the base URL with trailing `"/"` stripped; consequently,
for a base URL ending in `"/"`, the returned endpoint differs from the input
whatever the probe answers (success case included). -/
theorem detect_endpoint_no_success_fallback (probe : Probe) (base_url : String) :
    (probe (rstripSlash base_url ++ "/status") ≠ some 200 →
      probe (rstripSlash base_url ++ "/wd/hub/status") ≠ some 200 →
      detect_appium_endpoint probe base_url = rstripSlash base_url) ∧
    (base_url.data.getLast? = some '/' →
      detect_appium_endpoint probe base_url ≠ base_url) := by
  constructor
  · intro hp hq
    unfold detect_appium_endpoint
    rw [detect_run_eq, if_neg hp, if_neg hq]
  · intro hend heq
    have hcases : detect_appium_endpoint probe base_url = rstripSlash base_url ∨
        detect_appium_endpoint probe base_url = rstripSlash base_url ++ "/wd/hub" := by
      unfold detect_appium_endpoint
      rw [detect_run_eq]
      by_cases hp : probe (rstripSlash base_url ++ "/status") = some 200
      · simp [hp]
      · by_cases hq : probe (rstripSlash base_url ++ "/wd/hub/status") = some 200
        · simp [hp, hq]
        · simp [hp, hq]
    rcases hcases with hd | hd
    · have hstr : rstripSlash base_url = base_url := hd.symm.trans heq
      have hlast := rstripSlash_getLast_ne base_url
      rw [hstr] at hlast
      exact hlast hend
    · have hb : (rstripSlash base_url ++ "/wd/hub").data.getLast? = some 'b' := by
        rw [String.data_append]
        rw [List.getLast?_append_of_ne_nil _ (by decide)]
        decide
      have hstr : base_url = rstripSlash base_url ++ "/wd/hub" := heq.symm.trans hd
      rw [hstr] at hend
      rw [hb] at hend
      cases hend

/-- Witness for C8: a probe that always raises resolves `"http://h"` to
itself, and for the trailing-slash base `"http://h/"` the result differs
from the input. -/
theorem detect_endpoint_no_success_fallback_witness :
    detect_appium_endpoint (fun _ : String => (none : Option Nat)) "http://h" =
      rstripSlash "http://h" ∧
    detect_appium_endpoint (fun _ : String => (none : Option Nat)) "http://h/" ≠
      "http://h/" := by
  constructor
  · exact (detect_endpoint_no_success_fallback (fun _ : String => (none : Option Nat))
      "http://h").1 (by decide) (by decide)
  · exact (detect_endpoint_no_success_fallback (fun _ : String => (none : Option Nat))
      "http://h/").2 (by decide)

/-! ## Login fallback lemmas and claim -/

lemma menuRetry_spec (p : LoginOutcomes) :
    PageCall.openMenu ∈ (menuRetry p).fst ∧
    ((menuRetry p).snd = Except.ok () ↔
      (p.openMenu = none ∧ p.openLoginFromMenu = none ∧
       p.retryUser = none ∧ p.retryPass = none)) ∧
    ((p.openMenu = none ∧ p.openLoginFromMenu = none ∧
      p.retryUser = none ∧ p.retryPass = none) →
      (menuRetry p).fst = [PageCall.openMenu, PageCall.openLoginFromMenu,
        PageCall.enterUsername, PageCall.enterPassword]) := by
  unfold menuRetry
  rcases hom : p.openMenu with _ | e1 <;>
    rcases hol : p.openLoginFromMenu with _ | e2 <;>
      rcases hru : p.retryUser with _ | e3 <;>
        rcases hrp : p.retryPass with _ | e4 <;>
          simp

/-- C6: if the direct credential entry raises `TimeoutException`, the step
attempts the menu path (open menu, open the "Log In" item, re-enter username
and password); it propagates a failure iff that menu-path retry itself fails,
and when the retry succeeds the call trace ends with the full menu-path retry.
Analogously, the logged-in step falls back to `login_via_menu` when the direct
`login` raises `TimeoutException` and fails only if the fallback fails. -/
theorem step_login_menu_fallback (p : LoginOutcomes) :
    (directEntryTimedOut p →
      PageCall.openMenu ∈ (step_enter_credentials p).fst ∧
      ((step_enter_credentials p).snd = Except.ok () ↔
        (p.openMenu = none ∧ p.openLoginFromMenu = none ∧
         p.retryUser = none ∧ p.retryPass = none)) ∧
      ((p.openMenu = none ∧ p.openLoginFromMenu = none ∧
        p.retryUser = none ∧ p.retryPass = none) →
        ∃ pre, (step_enter_credentials p).fst = pre ++
          [PageCall.openMenu, PageCall.openLoginFromMenu,
           PageCall.enterUsername, PageCall.enterPassword])) ∧
    (p.loginCall = some PyExc.timeout →
      PageCall.loginViaMenu ∈ (step_logged_in p).fst ∧
      ((step_logged_in p).snd = Except.ok () ↔ p.loginViaMenu = none)) := by
  constructor
  · intro hT
    have hm := menuRetry_spec p
    rcases hT with hU | ⟨hU, hP⟩
    · unfold step_enter_credentials
      rw [hU]
      dsimp only
      refine ⟨List.mem_cons_of_mem _ hm.1, hm.2.1, ?_⟩
      intro hall
      refine ⟨[PageCall.enterUsername], ?_⟩
      rw [hm.2.2 hall]
      rfl
    · unfold step_enter_credentials
      rw [hU, hP]
      dsimp only
      refine ⟨?_, hm.2.1, ?_⟩
      · exact List.mem_append_right _ hm.1
      · intro hall
        refine ⟨[PageCall.enterUsername, PageCall.enterPassword], ?_⟩
        rw [hm.2.2 hall]
  · intro hL
    unfold step_logged_in
    rw [hL]
    dsimp only
    rcases hlv : p.loginViaMenu with _ | e <;> simp

/-- Witness for C6: with both direct attempts timing out and every menu-path
call succeeding, both steps end successfully (no failure is propagated). -/
theorem step_login_menu_fallback_witness :
    (step_enter_credentials ⟨some PyExc.timeout, none, none, none, none, none,
      some PyExc.timeout, none⟩).snd = Except.ok () ∧
    (step_logged_in ⟨some PyExc.timeout, none, none, none, none, none,
      some PyExc.timeout, none⟩).snd = Except.ok () := by
  constructor
  · exact (((step_login_menu_fallback ⟨some PyExc.timeout, none, none, none, none, none,
      some PyExc.timeout, none⟩).1 (Or.inl rfl)).2.1).mpr ⟨rfl, rfl, rfl, rfl⟩
  · exact (((step_login_menu_fallback ⟨some PyExc.timeout, none, none, none, none, none,
      some PyExc.timeout, none⟩).2 rfl).2).mpr rfl

end MobileBdd
